import Mathlib

/-!
Verification of the `class_utils` association engine and plot helpers.

The Python sources are shallowly embedded: dataframe cells become an
inductive `Val` (finite rationals, NaN, plus/minus infinity, categorical
strings, missing markers), statistic collaborators (`pearsonr`,
`correlation_ratio`, `theils_u`, `theils_sym_u`) are abstract function
parameters gathered in `Stats`, exceptions become `Except PyErr`, and the
mutable matrices of `corr` become finite updates of total functions on
column labels.
-/

/-- A cell value of a dataframe column: a finite numeric value, a numeric
NaN, positive/negative infinity, a categorical string, or a missing
(`None`-like) marker. -/
inductive Val where
  | num (q : ℚ)
  | nan
  | inf
  | ninf
  | cat (s : String)
  | null
deriving DecidableEq

/-- Result of a numeric statistic (a float that may be NaN or infinite). -/
inductive Rval where
  | fin (q : ℚ)
  | nan
  | inf
  | ninf
deriving DecidableEq

/-- Python exceptions raised by the embedded code. -/
inductive PyErr where
  | valueError (msg : String)
  | typeError
  | keyError (k : String)
deriving DecidableEq

/-- Embeds `np.isfinite` on a numeric column: true only on finite values. -/
def isfinite : Val → Bool
  | .num _ => true
  | _ => false

/-- Embeds `pd.isnull`: true on NaN and on the missing marker. -/
def isnullV : Val → Bool
  | .nan => true
  | .null => true
  | _ => false

/-- Row validity used by `_make_finite`: finiteness for a numeric column,
non-nullness for a categorical one. -/
def validFor (numeric : Bool) (v : Val) : Bool :=
  if numeric then isfinite v else !(isnullV v)

/-- Embeds `_make_finite` from `corr.py`: under `"mask"` it keeps exactly the
rows valid in both columns; under `"replace"` it substitutes invalid entries
with `replaceValue` independently per column; any other method name raises a
`ValueError`. -/
def make_finite (col1 col2 : List Val) (col1Numeric col2Numeric : Bool)
    (method : String) (replaceValue : Val) : Except PyErr (List Val × List Val) :=
  if method = "mask" then
    let rows := (col1.zip col2).filter
      (fun ab => validFor col1Numeric ab.1 && validFor col2Numeric ab.2)
    .ok (rows.map Prod.fst, rows.map Prod.snd)
  else if method = "replace" then
    .ok (col1.map (fun a => if validFor col1Numeric a then a else replaceValue),
         col2.map (fun b => if validFor col2Numeric b then b else replaceValue))
  else
    .error (.valueError ("Unknown method " ++ method ++ "."))

/-- A dataframe: named columns of values. -/
structure DataFrame where
  cols : List (String × List Val)

/-- The column names of a dataframe, in order. -/
def DataFrame.names (df : DataFrame) : List String :=
  df.cols.map Prod.fst

/-- Column lookup (used only on columns known to exist). -/
def getCol (df : DataFrame) (c : String) : List Val :=
  (((df.cols.find? (fun p => p.1 == c)).map Prod.snd)).getD []

/-- Embeds `df.columns.intersection(set(categorical) | set(numeric))`: the
dataframe columns, in dataframe order, that belong to either role list. -/
def selectedCols (df : DataFrame) (catInputs numInputs : List String) : List String :=
  df.names.filter (fun c => decide (c ∈ catInputs) || decide (c ∈ numInputs))

/-- The `CorrType` enum from `corr.py`. -/
inductive CorrType where
  | num_vs_num
  | num_vs_cat
  | cat_vs_num
  | cat_vs_cat
deriving DecidableEq

/-- An entry of the correlation-types dataframe `df_ct`: initialized with the
float `0.0` and overwritten with `CorrType` values for computed pairs. -/
inductive CTEntry where
  | zero
  | ct (t : CorrType)
deriving DecidableEq

/-- The statistic collaborators of `corr`, treated as black boxes: the numeric
correlation method (default `pearsonr`, returning a coefficient and p-value),
the correlation ratio, and the two uncertainty-coefficient variants. -/
structure Stats where
  corrMethod : List Val → List Val → Rval × Rval
  correlationRatioFn : List Val → List Val → Rval
  theilsU : List Val → List Val → Rval
  theilsSymU : List Val → List Val → Rval

/-- The three matrices built by `corr`, as label-indexed total functions. -/
structure CorrState where
  r : String → String → Rval
  p : String → String → Rval
  ct : String → String → CTEntry

/-- A single label-indexed matrix write `m.loc[i, j] = v`. -/
def upd {α : Type} (f : String → String → α) (i j : String) (v : α) :
    String → String → α :=
  fun a b => if a = i ∧ b = j then v else f a b

/-- The initial matrices of `corr`: `np.ones` for associations, `np.zeros`
for p-values, and the zero-filled correlation-type frame. -/
def corrInit : CorrState :=
  { r := fun _ _ => .fin 1, p := fun _ _ => .fin 0, ct := fun _ _ => .zero }

/-- Embeds `itertools.combinations(columns, 2)`: all pairs of columns with
the first strictly earlier in the list. -/
def combos2 : List String → List (String × String)
  | [] => []
  | c :: rest => rest.map (fun d => (c, d)) ++ combos2 rest

/-- The values one loop iteration of `corr` writes for an unordered column
pair: the entries destined for `[col1,col2]` and `[col2,col1]` in the
association, p-value and type matrices. -/
structure PairOut where
  r12 : Rval
  r21 : Rval
  p12 : Rval
  p21 : Rval
  ctv : CorrType

/-- One dispatch step of the pair loop of `corr`: branch on membership of each
column in `numeric_inputs`, clean the two columns with `_make_finite`, and
compute the values to store. -/
def pairVals (df : DataFrame) (numInputs : List String) (fns : Stats)
    (strat : String) (rv : Val) (symU : Bool) (c1 c2 : String) :
    Except PyErr PairOut :=
  if c1 ∈ numInputs then
    if c2 ∈ numInputs then do
      let xy ← make_finite (getCol df c1) (getCol df c2) true true strat rv
      let rp := fns.corrMethod xy.1 xy.2
      pure ⟨rp.1, rp.1, rp.2, rp.2, .num_vs_num⟩
    else do
      let xy ← make_finite (getCol df c1) (getCol df c2) true false strat rv
      pure ⟨fns.correlationRatioFn xy.2 xy.1, fns.correlationRatioFn xy.2 xy.1,
            .fin 0, .fin 0, .num_vs_cat⟩
  else
    if c2 ∈ numInputs then do
      let xy ← make_finite (getCol df c1) (getCol df c2) false true strat rv
      pure ⟨fns.correlationRatioFn xy.1 xy.2, fns.correlationRatioFn xy.1 xy.2,
            .fin 0, .fin 0, .cat_vs_num⟩
    else do
      let xy ← make_finite (getCol df c1) (getCol df c2) false false strat rv
      if symU then
        pure ⟨fns.theilsSymU xy.1 xy.2, fns.theilsSymU xy.1 xy.2,
              .fin 0, .fin 0, .cat_vs_cat⟩
      else
        pure ⟨fns.theilsU xy.1 xy.2, fns.theilsU xy.2 xy.1,
              .fin 0, .fin 0, .cat_vs_cat⟩

/-- The four symmetric `.loc` writes of one pair-loop iteration. -/
def writePair (st : CorrState) (c1 c2 : String) (o : PairOut) : CorrState :=
  { r := upd (upd st.r c1 c2 o.r12) c2 c1 o.r21,
    p := upd (upd st.p c1 c2 o.p12) c2 c1 o.p21,
    ct := upd (upd st.ct c1 c2 (.ct o.ctv)) c2 c1 (.ct o.ctv) }

/-- One full iteration of the loop of `corr` over a column pair. -/
def pairStep (df : DataFrame) (numInputs : List String) (fns : Stats)
    (strat : String) (rv : Val) (symU : Bool) (st : CorrState)
    (c : String × String) : Except PyErr CorrState :=
  (pairVals df numInputs fns strat rv symU c.1 c.2).map (writePair st c.1 c.2)

/-- Embeds `corr` from `corr.py` with explicit role lists: select the columns,
initialize the matrices, and fold the pair loop over all unordered column
pairs, returning the matrices and the selected column labels. -/
def corr (df : DataFrame) (catInputs numInputs : List String) (fns : Stats)
    (nanStrategy : String) (nanReplaceValue : Val) (symU : Bool) :
    Except PyErr (CorrState × List String) := do
  let sel := selectedCols df catInputs numInputs
  let st ← (combos2 sel).foldlM
    (pairStep df numInputs fns nanStrategy nanReplaceValue symU) corrInit
  pure (st, sel)

/-- Lexicographic comparison of character lists (the order `np.unique` sorts
string arrays by). -/
def charListLe : List Char → List Char → Bool
  | [], _ => true
  | _ :: _, [] => false
  | a :: as, b :: bs => if a < b then true else if b < a then false else charListLe as bs

/-- Lexicographic order on strings. -/
def strLe (a b : String) : Bool :=
  charListLe a.data b.data

/-- Insert a string into a sorted list, keeping it sorted. -/
def insertSorted (a : String) : List String → List String
  | [] => [a]
  | b :: t => if strLe a b then a :: b :: t else b :: insertSorted a t

/-- Insertion sort on strings. -/
def sortStr (l : List String) : List String :=
  l.foldr insertSorted []

/-- Embeds `np.unique` on an array of strings: the distinct values, sorted. -/
def uniqueSorted (l : List String) : List String :=
  (sortStr l).dedup

/-- Embeds `.astype(str)` of a possibly-missing value: missing entries print
as the string nan. -/
def strCast : Option String → String
  | none => "nan"
  | some s => s

/-- The crosstab dataframe returned by `numpy_crosstab`: row labels, column
labels, and the count matrix in row-major order. -/
structure CTab where
  rowLabels : List String
  colLabels : List String
  cells : List (List Nat)
deriving DecidableEq

/-- Embeds `numpy_crosstab` from `utils.py`: optionally drop rows where
either side is missing, string-cast both sides, build the co-occurrence count
matrix over the sorted unique values, and drop the nan row and column unless
`shownan` is set. -/
def numpyCrosstab (x y : List (Option String)) (dropna shownan : Bool) : CTab :=
  let pairs0 := x.zip y
  let pairs := if dropna then pairs0.filter (fun p => p.1.isSome && p.2.isSome) else pairs0
  let xs := pairs.map (fun p => strCast p.1)
  let ys := pairs.map (fun p => strCast p.2)
  let xCats0 := uniqueSorted xs
  let yCats0 := uniqueSorted ys
  let xCats := if shownan then xCats0 else xCats0.filter (fun s => decide (s ≠ "nan"))
  let yCats := if shownan then yCats0 else yCats0.filter (fun s => decide (s ≠ "nan"))
  ⟨xCats, yCats,
   xCats.map (fun a => yCats.map (fun b =>
     pairs.countP (fun p => decide (strCast p.1 = a ∧ strCast p.2 = b))))⟩

/-- The sum of all cells of a crosstab. -/
def ctabTotal (t : CTab) : Nat :=
  (t.cells.map List.sum).sum

/-- Embeds `np.isnan` on a statistic value. -/
def isnanR : Rval → Bool
  | .nan => true
  | _ => false

/-- Embeds `np.abs` on a statistic value. -/
def absR : Rval → Rval
  | .fin q => .fin |q|
  | .nan => .nan
  | .inf => .inf
  | .ninf => .inf

/-- Embeds the numpy comparison `v >= b` for a float `v` and finite bound `b`
(false when `v` is NaN). -/
def rvalGe (v : Rval) (b : ℚ) : Bool :=
  match v with
  | .fin q => decide (b ≤ q)
  | .inf => true
  | _ => false

/-- The kind of patch emitted for one heatmap cell. -/
inductive Shape where
  | circle
  | rect
deriving DecidableEq

/-- The mask test of the loop of `_zaric_heatmap`:
`not mask is None and mask[index]`. -/
def maskAt (mask : Option (List Bool)) (i : Nat) : Bool :=
  match mask with
  | none => false
  | some m => m.getD i false

/-- The cell filter of the loop of `_zaric_heatmap`: a cell is skipped when its
size is zero, its color is NaN, or it is masked. -/
def zaricSkip (color size : List Rval) (mask : Option (List Bool)) (i : Nat) : Bool :=
  decide (size.getD i (.fin 1) = .fin 0) || isnanR (color.getD i (.fin 1)) || maskAt mask i

/-- Embeds the patch-emitting loop of `_zaric_heatmap` (geometry omitted):
iterate over `zip(x, y, circular)` with a running index, skip filtered cells,
and append one patch per remaining cell, recording its index (the source variable
`patch_col_ind`) and whether it is a circle or a rectangle. -/
def zaricShapes (y x : List String) (color size : List Rval)
    (circular : List Bool) (mask : Option (List Bool)) : List (Nat × Shape) :=
  (List.range (min (min x.length y.length) circular.length)).filterMap
    (fun i =>
      if zaricSkip color size mask i then none
      else some (i, if circular.getD i false then Shape.circle else Shape.rect))

/-- A value matrix with row and column labels, as passed to `heatmap`. -/
structure HeatDf where
  rows : List String
  cols : List String
  vals : List (List Rval)

/-- Embeds `heatmap` from `plots.py` (default clustering arguments): reject
`ax` with dendrograms, dispatch on `map_type`, flatten the matrix in
row-major order for the zaric renderer (sizes are absolute values, circles
mark numeric-numeric cells), delegate standard/dendrogram rendering, and
raise a `ValueError` on any other `map_type`. -/
def heatmap (hdf : HeatDf) (corrTypes : Option (List (List CTEntry)))
    (mask0 : Option (List (List Bool))) (mapType : String) (axGiven : Bool) :
    Except PyErr Unit :=
  if mapType = "dendrograms" ∧ axGiven then
    .error (.valueError "Argument ax is not supported for map_type dendrograms.")
  else if mapType = "zaric" then
    let l := (hdf.rows.map (fun r => hdf.cols.map (fun c => (r, c)))).flatten
    let xs := l.map Prod.fst
    let ys := l.map Prod.snd
    let v := hdf.vals.flatten
    let m := mask0.map List.flatten
    let circ := match corrTypes with
      | none => List.replicate xs.length false
      | some ctl => ctl.flatten.map (fun e => decide (e = CTEntry.ct CorrType.num_vs_num))
    let _shapes := zaricShapes xs ys v (v.map absR) circ m
    .ok ()
  else if mapType = "standard" then .ok ()
  else if mapType = "dendrograms" then .ok ()
  else .error (.valueError ("Unknown map_type " ++ mapType ++ "."))

/-- Embeds `_mask_corr_significance`: mark as masked every cell whose p-value
satisfies `p >= p_bound`. -/
def maskCorrSignificance (mask : String → String → Bool)
    (p : String → String → Rval) (pBound : ℚ) : String → String → Bool :=
  fun i j => if rvalGe (p i j) pBound then true else mask i j

/-- Embeds `_mask_diagonal`: set the diagonal of the mask to `True`. -/
def maskDiagonalF (mask : String → String → Bool) : String → String → Bool :=
  fun i j => if i = j then true else mask i j

/-- The mask pipeline of `corr_heatmap`: start from an all-visible mask or a
copy of the caller mask, apply the significance mask when a p-value bound is
given, then mask the diagonal when requested. -/
def corrHeatmapMask (mask0 : Option (String → String → Bool))
    (p : String → String → Rval) (pBound : Option ℚ) (maskDiag : Bool) :
    String → String → Bool :=
  let m := mask0.getD (fun _ _ => false)
  let m := match pBound with
    | some b => maskCorrSignificance m p b
    | none => m
  if maskDiag then maskDiagonalF m else m

/-- Embeds `corr_heatmap`: compute the association matrices with `corr`,
build the render mask, forward everything to `heatmap`, and return the
matrices. -/
def corrHeatmap (df : DataFrame) (catInputs numInputs : List String)
    (fns : Stats) (nanStrategy : String) (nanReplaceValue : Val) (symU : Bool)
    (maskDiag : Bool) (pBound : Option ℚ)
    (mask0 : Option (String → String → Bool)) (mapType : String)
    (axGiven : Bool) : Except PyErr (CorrState × List String) := do
  let out ← corr df catInputs numInputs fns nanStrategy nanReplaceValue symU
  let st := out.1
  let sel := out.2
  let mask := corrHeatmapMask mask0 st.p pBound maskDiag
  let maskL := sel.map (fun i => sel.map (fun j => mask i j))
  let ctL := sel.map (fun i => sel.map (fun j => st.ct i j))
  let rL := sel.map (fun i => sel.map (fun j => st.r i j))
  let _ ← heatmap ⟨sel, sel, rL⟩ (some ctL) (some maskL) mapType axGiven
  pure (st, sel)

/-- The `ColGrid` plot-grid object: the dataframe, the x and y column lists
(the y list holds `None` when no y axis was supplied), the interaction mode,
and the resolved column wrap. -/
structure ColGrid where
  data : DataFrame
  xCols : List String
  yCols : List (Option String)
  interact : String
  colWrap : Nat

/-- Embeds `ColGrid.__init__`: reject the comb interaction together with a
y-column list, wrap a missing y list into `[None]`, and default `col_wrap`
to `min(4, len(x_cols) * len(y_cols))`. -/
def colGridInit (data : DataFrame) (xCols : List String)
    (yCols : Option (List String)) (interact : String) (colWrap : Option Nat) :
    Except PyErr ColGrid :=
  if interact = "comb" ∧ yCols ≠ none then
    .error (.valueError "When using interact == comb, y_cols must be None.")
  else
    let y := match yCols with
      | none => [none]
      | some l => l.map some
    let cw := colWrap.getD (min 4 (xCols.length * y.length))
    .ok ⟨data, xCols, y, interact, cw⟩

/-- The plotting loop of `ColGrid.map`: lay the pairs over the grid axes
(`ceil(num_plots / col_wrap)` rows of `col_wrap` axes) and call the plot
function on each pair in turn. -/
def colGridRun (g : ColGrid) (pairs : List (String × Option String))
    (numPlots : Nat) (func : String → Option String → Except PyErr Unit) :
    Except PyErr Unit :=
  let numRows := (numPlots + g.colWrap - 1) / g.colWrap
  (pairs.take (numRows * g.colWrap)).forM (fun pr => func pr.1 pr.2)

/-- Embeds `ColGrid.map`: build the column-pair iterator according to the
interaction mode (product, zip, or combinations of the x columns), raising a
`ValueError` on any other mode, then run the plotting loop. -/
def colGridMap (g : ColGrid) (func : String → Option String → Except PyErr Unit) :
    Except PyErr Unit :=
  if g.interact = "product" then
    colGridRun g ((g.xCols.map (fun a => g.yCols.map (fun b => (a, b)))).flatten)
      (g.xCols.length * g.yCols.length) func
  else if g.interact = "zip" then
    colGridRun g (g.xCols.zip g.yCols) (min g.xCols.length g.yCols.length) func
  else if g.interact = "comb" then
    colGridRun g ((combos2 g.xCols).map (fun c => (c.1, some c.2)))
      (Nat.choose g.xCols.length 2) func
  else
    .error (.valueError ("Uknown interact method " ++ g.interact ++ "."))

/-- A Python object passed around by the plot helpers: either a plain string
(a column name) or a pandas series of values. -/
inductive PyObj where
  | str (s : String)
  | ser (vals : List Val)

/-- Dataframe column lookup raising a `KeyError` for a missing column. -/
def dfGetE (df : DataFrame) (c : String) : Except PyErr (List Val) :=
  match df.cols.find? (fun p => p.1 == c) with
  | some p => .ok p.2
  | none => .error (.keyError c)

/-- Embeds `pd.concat([x, y], axis=1)` as used by `_groupby_propplot`:
concatenation succeeds only on series objects and raises a `TypeError` when
handed a plain string. -/
def pdConcat2 (a b : PyObj) : Except PyErr Unit :=
  match a, b with
  | .ser _, .ser _ => .ok ()
  | _, _ => .error .typeError

/-- The `data[obj]` lookup of `_groupby_propplot`: a string indexes a column;
a series argument is passed through. -/
def dataGetP (df : DataFrame) (o : PyObj) : Except PyErr (List Val) :=
  match o with
  | .str s => dfGetE df s
  | .ser v => .ok v

/-- Embeds `_groupby_propplot`: resolve `x` and `y` against `data` when a
dataframe is supplied, then concatenate them and draw the grouped bar plot
(the drawing itself is a black box). -/
def groupbyPropplot (x y : PyObj) (data : Option DataFrame) : Except PyErr Unit := do
  let xy ← match data with
    | none => Except.ok (x, y)
    | some df => do
        let xc ← dataGetP df x
        let yc ← dataGetP df y
        Except.ok (PyObj.ser xc, PyObj.ser yc)
  let _ ← pdConcat2 xy.1 xy.2
  pure ()

/-- String representation used for dummy-column names. -/
def pyStr : Val → String
  | .cat s => s
  | .num q => toString q
  | .nan => "nan"
  | .inf => "inf"
  | .ninf => "-inf"
  | .null => "None"

/-- The dummy-column name suffixes `pd.get_dummies` derives from a column:
the sorted unique non-missing values. -/
def getDummiesCols (vals : List Val) : List String :=
  uniqueSorted (vals.filterMap (fun v => if isnullV v then none else some (pyStr v)))

/-- Embeds `pd.get_dummies` followed by the rename in `proportion_plot`: one
indicator column per distinct value, named `prop_col=value`. -/
def getDummies (propCol : String) (vals : List Val) : List (String × List Val) :=
  (getDummiesCols vals).map (fun s =>
    (propCol ++ "=" ++ s,
     vals.map (fun v => Val.num (if !isnullV v && pyStr v == s then 1 else 0))))

/-- The grid `proportion_plot` builds for one prop column: dummy-encode the
prop column, concatenate it with the `x_col` column, and construct a
`ColGrid` whose x columns are the literal `["Sex"]`. -/
def proportionPlotGrid (df : DataFrame) (xCol propCol : String) :
    Except PyErr ColGrid := do
  let propVals ← dfGetE df propCol
  let xSeries ← dfGetE df xCol
  let dumm := getDummies propCol propVals
  let dummDf : DataFrame := ⟨(xCol, xSeries) :: dumm⟩
  colGridInit dummDf ["Sex"] (some (dumm.map Prod.fst)) "product" none

/-- The adapter with which `ColGrid.map` invokes `_groupby_propplot`: the
grid passes bare column-name strings and no `data` keyword; a missing y
column is a missing required argument (`TypeError`). -/
def propplotFunc (a : String) (b : Option String) : Except PyErr Unit :=
  match b with
  | some s => groupbyPropplot (PyObj.str a) (PyObj.str s) none
  | none => .error .typeError

/-- One iteration of `proportion_plot`: build the grid for a prop column and
map `_groupby_propplot` over it. -/
def proportionPlotOne (df : DataFrame) (xCol propCol : String) :
    Except PyErr Unit := do
  let g ← proportionPlotGrid df xCol propCol
  colGridMap g propplotFunc

/-- Embeds `proportion_plot`: iterate `proportionPlotOne` over the prop
columns. -/
def proportionPlot (df : DataFrame) (xCol : String) (propCols : List String) :
    Except PyErr Unit :=
  propCols.forM (fun pc => proportionPlotOne df xCol pc)

/-- An argument to `crosstab_plot`: a column name or a series of
possibly-missing string values. -/
inductive CrossArg where
  | name (s : String)
  | ser (vals : List (Option String))

/-- A dataframe of string-valued columns, as crosstabulated columns. -/
structure CrossDF where
  cols : List (String × List (Option String))

/-- The `data[obj]` lookup of `crosstab_plot`: a name indexes a column
(raising a `KeyError` when absent); a series argument is passed through. -/
def dataGet9 (df : CrossDF) (o : CrossArg) : Except PyErr (List (Option String)) :=
  match o with
  | .name s =>
      match df.cols.find? (fun p => p.1 == s) with
      | some p => .ok p.2
      | none => .error (.keyError s)
  | .ser v => .ok v

/-- The keyword parameters accepted by the signature of `numpy_crosstab`. -/
def numpyCrosstabKeys : List String :=
  ["x", "y", "dropna", "shownan"]

/-- A keyword call of `numpy_crosstab`: the Python argument binding raises a
`TypeError` before the body runs when any supplied keyword is not in the
signature. -/
def callNumpyCrosstab (x y : List (Option String)) (dropna shownan : Bool)
    (kwargNames : List String) : Except PyErr CTab :=
  if kwargNames.all (fun k => numpyCrosstabKeys.contains k) then
    .ok (numpyCrosstab x y dropna shownan)
  else
    .error .typeError

/-- The series a `crosstab_plot` argument stands for once lookups are done
(a bare name with no dataframe never reaches the crosstab body). -/
def crossArgSeries : CrossArg → List (Option String)
  | .name _ => []
  | .ser v => v

/-- Embeds `crosstab_plot`: resolve `x` and `y` against `data` when given,
then call `numpy_crosstab` with the swapped series and the keywords
`dropna`, `shownan` and `normalize`. -/
def crosstabPlot (x y : CrossArg) (data : Option CrossDF) (dropna shownan : Bool)
    (_normalize : Option String) : Except PyErr CTab := do
  let xy ← match data with
    | none => Except.ok (x, y)
    | some df => do
        let xv ← dataGet9 df x
        let yv ← dataGet9 df y
        Except.ok (CrossArg.ser xv, CrossArg.ser yv)
  callNumpyCrosstab (crossArgSeries xy.2) (crossArgSeries xy.1) dropna shownan
    ["dropna", "shownan", "normalize"]

/-- Two unordered column pairs over the same support: `d` writes into the
same two matrix cells as `c`. -/
def sameSup (c d : String × String) : Prop :=
  (d.1 = c.1 ∧ d.2 = c.2) ∨ (d.1 = c.2 ∧ d.2 = c.1)

/-- The pair kind determined by the numeric flags of the first- and
second-listed columns of the pair, matching the dispatch of the `corr` loop. -/
def kindOf (n1 n2 : Bool) : CorrType :=
  if n1 then (if n2 then .num_vs_num else .num_vs_cat)
  else (if n2 then .cat_vs_num else .cat_vs_cat)

/-- Trivial statistic functions, for concrete evaluations. -/
def fnsW : Stats :=
  ⟨fun _ _ => (.fin 0, .fin 0), fun _ _ => .fin 0, fun _ _ => .fin 0, fun _ _ => .fin 0⟩

/-- Statistic functions with a direction-sensitive uncertainty coefficient:
`theilsU x y` counts the occurrences of the category a in its first
argument. -/
def fnsAsym : Stats :=
  ⟨fun _ _ => (.fin 0, .fin 0), fun _ _ => .fin 0,
   fun x _ => .fin (x.countP (fun v => decide (v = Val.cat "a"))),
   fun _ _ => .fin 0⟩

/-- The running example of the spec: numeric column A with a trailing NaN and
categorical column B. -/
def dfC1 : DataFrame :=
  ⟨[("A", [Val.num 1, Val.num 2, Val.num 3, Val.nan]),
    ("B", [Val.cat "x", Val.cat "y", Val.cat "x", Val.cat "y"])]⟩

/-- A two-column frame with the numeric column listed first. -/
def dfC4 : DataFrame :=
  ⟨[("N", [Val.num 1, Val.num 2]), ("C", [Val.cat "u", Val.cat "v"])]⟩

/-- Two categorical columns with different category counts of a. -/
def dfAsym : DataFrame :=
  ⟨[("C", [Val.cat "a", Val.cat "a"]), ("D", [Val.cat "a", Val.cat "b"])]⟩

/-- A single-column dataframe: `corr` computes no pair on it. -/
def dfOneCol : DataFrame :=
  ⟨[("A", [Val.num 1])]⟩

/-- A dataframe with a Sex column and one prop column. -/
def dfC10 : DataFrame :=
  ⟨[("Sex", [Val.cat "m"]), ("Smoker", [Val.cat "yes"])]⟩

/-- The concrete `corr` output used to witness the diagonal theorem. -/
def corrOutW : CorrState × List String :=
  (corr dfC4 ["C"] ["N"] fnsW "mask" (Val.num 0) false).toOption.getD (corrInit, [])

/-- The values the loop of `corr` stores for a pair, as a function of the two
numeric-membership flags and the cleaned columns. -/
def pairOutSpec (fns : Stats) (symU : Bool) (n1 n2 : Bool) (x y : List Val) :
    PairOut :=
  if n1 then
    if n2 then
      ⟨(fns.corrMethod x y).1, (fns.corrMethod x y).1,
       (fns.corrMethod x y).2, (fns.corrMethod x y).2, .num_vs_num⟩
    else
      ⟨fns.correlationRatioFn y x, fns.correlationRatioFn y x,
       .fin 0, .fin 0, .num_vs_cat⟩
  else
    if n2 then
      ⟨fns.correlationRatioFn x y, fns.correlationRatioFn x y,
       .fin 0, .fin 0, .cat_vs_num⟩
    else if symU then
      ⟨fns.theilsSymU x y, fns.theilsSymU x y, .fin 0, .fin 0, .cat_vs_cat⟩
    else
      ⟨fns.theilsU x y, fns.theilsU y x, .fin 0, .fin 0, .cat_vs_cat⟩

theorem sameSup_symm {c d : String × String} (h : sameSup c d) : sameSup d c := by
  rcases h with ⟨h1, h2⟩ | ⟨h1, h2⟩
  · exact Or.inl ⟨h1.symm, h2.symm⟩
  · exact Or.inr ⟨h2.symm, h1.symm⟩

theorem sameSup_swap {i j : String} {d : String × String} :
    sameSup (i, j) d ↔ sameSup (j, i) d := by
  unfold sameSup
  constructor
  · rintro (⟨h1, h2⟩ | ⟨h1, h2⟩)
    · exact Or.inr ⟨h1, h2⟩
    · exact Or.inl ⟨h1, h2⟩
  · rintro (⟨h1, h2⟩ | ⟨h1, h2⟩)
    · exact Or.inr ⟨h1, h2⟩
    · exact Or.inl ⟨h1, h2⟩

theorem writePair_other (st : CorrState) (c1 c2 i j : String) (o : PairOut)
    (h : ¬ sameSup (c1, c2) (i, j)) :
    (writePair st c1 c2 o).r i j = st.r i j ∧
    (writePair st c1 c2 o).p i j = st.p i j ∧
    (writePair st c1 c2 o).ct i j = st.ct i j := by
  have h1 : ¬(i = c1 ∧ j = c2) := fun hc => h (Or.inl hc)
  have h2 : ¬(i = c2 ∧ j = c1) := fun hc => h (Or.inr hc)
  refine ⟨?_, ?_, ?_⟩ <;> simp [writePair, upd, h1, h2]

theorem writePair_read (st : CorrState) (c1 c2 : String) (o : PairOut)
    (hne : c1 ≠ c2) :
    (writePair st c1 c2 o).r c1 c2 = o.r12 ∧
    (writePair st c1 c2 o).r c2 c1 = o.r21 ∧
    (writePair st c1 c2 o).p c1 c2 = o.p12 ∧
    (writePair st c1 c2 o).p c2 c1 = o.p21 ∧
    (writePair st c1 c2 o).ct c1 c2 = CTEntry.ct o.ctv ∧
    (writePair st c1 c2 o).ct c2 c1 = CTEntry.ct o.ctv := by
  refine ⟨?_, ?_, ?_, ?_, ?_, ?_⟩ <;> simp [writePair, upd, hne, Ne.symm hne]

theorem pairStep_ok {df : DataFrame} {numIn : List String} {fns : Stats}
    {strat : String} {rv : Val} {symU : Bool} {st st' : CorrState}
    {c : String × String}
    (h : pairStep df numIn fns strat rv symU st c = .ok st') :
    ∃ o, pairVals df numIn fns strat rv symU c.1 c.2 = .ok o ∧
      st' = writePair st c.1 c.2 o := by
  unfold pairStep at h
  cases hv : pairVals df numIn fns strat rv symU c.1 c.2 with
  | error e => rw [hv] at h; simp [Except.map] at h
  | ok o =>
      rw [hv] at h
      simp only [Except.map, Except.ok.injEq] at h
      exact ⟨o, rfl, h.symm⟩

theorem fold_untouched (df : DataFrame) (numIn : List String) (fns : Stats)
    (strat : String) (rv : Val) (symU : Bool) (i j : String)
    (P : List (String × String)) :
    ∀ (st0 st : CorrState),
    (∀ c ∈ P, ¬ sameSup c (i, j)) →
    P.foldlM (pairStep df numIn fns strat rv symU) st0 = .ok st →
    st.r i j = st0.r i j ∧ st.p i j = st0.p i j ∧ st.ct i j = st0.ct i j := by
  induction P with
  | nil =>
      intro st0 st _ hf
      simp only [List.foldlM_nil, pure, Except.pure, Except.ok.injEq] at hf
      subst hf
      exact ⟨rfl, rfl, rfl⟩
  | cons c P ih =>
      intro st0 st hP hf
      rw [List.foldlM_cons] at hf
      cases hs : pairStep df numIn fns strat rv symU st0 c with
      | error e => rw [hs] at hf; simp [Bind.bind, Except.bind] at hf
      | ok st1 =>
          rw [hs] at hf
          simp only [Bind.bind, Except.bind] at hf
          obtain ⟨o, _, hw⟩ := pairStep_ok hs
          have huntouched := writePair_other st0 c.1 c.2 i j o
            (hP c (List.mem_cons_self c P))
          have hrest := ih st1 st (fun d hd => hP d (List.mem_cons_of_mem c hd)) hf
          rw [← hw] at huntouched
          exact ⟨hrest.1.trans huntouched.1,
                 hrest.2.1.trans huntouched.2.1,
                 hrest.2.2.trans huntouched.2.2⟩

theorem fold_entry (df : DataFrame) (numIn : List String) (fns : Stats)
    (strat : String) (rv : Val) (symU : Bool) (c1 c2 : String) (hne : c1 ≠ c2)
    (P : List (String × String)) :
    ∀ (st0 st : CorrState),
    P.Pairwise (fun c d => ¬ sameSup c d) →
    (c1, c2) ∈ P →
    P.foldlM (pairStep df numIn fns strat rv symU) st0 = .ok st →
    ∃ o, pairVals df numIn fns strat rv symU c1 c2 = .ok o ∧
      st.r c1 c2 = o.r12 ∧ st.r c2 c1 = o.r21 ∧
      st.p c1 c2 = o.p12 ∧ st.p c2 c1 = o.p21 ∧
      st.ct c1 c2 = CTEntry.ct o.ctv ∧ st.ct c2 c1 = CTEntry.ct o.ctv := by
  induction P with
  | nil => intro st0 st _ hmem _; cases hmem
  | cons c P ih =>
      intro st0 st hPW hmem hf
      rw [List.foldlM_cons] at hf
      cases hs : pairStep df numIn fns strat rv symU st0 c with
      | error e => rw [hs] at hf; simp [Bind.bind, Except.bind] at hf
      | ok st1 =>
          rw [hs] at hf
          simp only [Bind.bind, Except.bind] at hf
          rcases List.mem_cons.mp hmem with heq | hmem'
          · obtain ⟨o, hv, hw⟩ := pairStep_ok hs
            rw [← heq] at hv hw
            have hhead : ∀ d ∈ P, ¬ sameSup (c1, c2) d := by
              intro d hd
              have := (List.pairwise_cons.mp hPW).1 d hd
              rw [← heq] at this
              exact this
            have hu1 := fold_untouched df numIn fns strat rv symU c1 c2 P st1 st
              (fun d hd hss => hhead d hd (sameSup_symm hss)) hf
            have hu2 := fold_untouched df numIn fns strat rv symU c2 c1 P st1 st
              (fun d hd hss =>
                hhead d hd (sameSup_swap.mp (sameSup_symm hss))) hf
            have hrd := writePair_read st0 c1 c2 o hne
            rw [hw] at hu1 hu2
            exact ⟨o, hv,
              hu1.1.trans hrd.1, hu2.1.trans hrd.2.1,
              hu1.2.1.trans hrd.2.2.1, hu2.2.1.trans hrd.2.2.2.1,
              hu1.2.2.trans hrd.2.2.2.2.1, hu2.2.2.trans hrd.2.2.2.2.2⟩
          · exact ih st1 st (List.pairwise_cons.mp hPW).2 hmem' hf

theorem combos2_mem {l : List String} {p : String × String}
    (h : p ∈ combos2 l) : p.1 ∈ l ∧ p.2 ∈ l := by
  induction l with
  | nil => cases h
  | cons a t ih =>
      rcases List.mem_append.mp h with h1 | h2
      · obtain ⟨d, hd, he⟩ := List.mem_map.mp h1
        rw [← he]
        exact ⟨List.mem_cons_self a t, List.mem_cons_of_mem a hd⟩
      · have := ih h2
        exact ⟨List.mem_cons_of_mem a this.1, List.mem_cons_of_mem a this.2⟩

theorem combos2_ne {l : List String} (hl : l.Nodup) {c1 c2 : String}
    (h : (c1, c2) ∈ combos2 l) : c1 ≠ c2 := by
  induction l with
  | nil => cases h
  | cons a t ih =>
      have ha : a ∉ t := (List.nodup_cons.mp hl).1
      rcases List.mem_append.mp h with h1 | h2
      · obtain ⟨d, hd, he⟩ := List.mem_map.mp h1
        injection he with he1 he2
        subst he1
        subst he2
        exact fun had => ha (had ▸ hd)
      · exact ih (List.nodup_cons.mp hl).2 h2

theorem combos2_pairwise {l : List String} (hl : l.Nodup) :
    (combos2 l).Pairwise (fun c d => ¬ sameSup c d) := by
  induction l with
  | nil => exact List.Pairwise.nil
  | cons a t ih =>
      have ha : a ∉ t := (List.nodup_cons.mp hl).1
      have ht : t.Nodup := (List.nodup_cons.mp hl).2
      rw [show combos2 (a :: t) = t.map (fun d => (a, d)) ++ combos2 t from rfl]
      apply List.pairwise_append.mpr
      refine ⟨?_, ih ht, ?_⟩
      · rw [List.pairwise_map]
        refine List.Pairwise.imp_of_mem ?_ ht
        intro d1 d2 h1 _ hne hss
        rcases hss with ⟨_, hq⟩ | ⟨hp, _⟩
        · exact hne hq.symm
        · exact ha (by rw [show a = d1 from hp]; exact h1)
      · intro x hx y hy hss
        obtain ⟨d, hd, he⟩ := List.mem_map.mp hx
        rw [← he] at hss
        have hyc := combos2_mem hy
        simp only [sameSup] at hss
        rcases hss with ⟨h1, _⟩ | ⟨_, h2⟩
        · exact ha (h1 ▸ hyc.1)
        · exact ha (h2 ▸ hyc.2)

theorem corr_ok_elim {df : DataFrame} {cat num : List String} {fns : Stats}
    {strat : String} {rv : Val} {symU : Bool} {st : CorrState}
    {sel : List String}
    (h : corr df cat num fns strat rv symU = .ok (st, sel)) :
    sel = selectedCols df cat num ∧
    (combos2 (selectedCols df cat num)).foldlM
      (pairStep df num fns strat rv symU) corrInit = .ok st := by
  simp only [corr, Bind.bind, Except.bind] at h
  cases hf : (combos2 (selectedCols df cat num)).foldlM
      (pairStep df num fns strat rv symU) corrInit with
  | error e => rw [hf] at h; simp at h
  | ok st' =>
      rw [hf] at h
      simp only [pure, Except.pure, Except.ok.injEq, Prod.mk.injEq] at h
      exact ⟨h.2.symm, by rw [h.1]⟩

theorem pairVals_eq {df : DataFrame} {numIn : List String} {fns : Stats}
    {strat : String} {rv : Val} {symU : Bool} {c1 c2 : String} {o : PairOut}
    (hv : pairVals df numIn fns strat rv symU c1 c2 = .ok o) :
    ∃ x y, make_finite (getCol df c1) (getCol df c2)
        (decide (c1 ∈ numIn)) (decide (c2 ∈ numIn)) strat rv = .ok (x, y) ∧
      o = pairOutSpec fns symU (decide (c1 ∈ numIn)) (decide (c2 ∈ numIn)) x y := by
  by_cases h1 : c1 ∈ numIn <;> by_cases h2 : c2 ∈ numIn <;>
    simp only [pairVals, h1, h2, if_true, if_false, Bind.bind, Except.bind] at hv
  · rw [decide_eq_true h1, decide_eq_true h2]
    cases hmf : make_finite (getCol df c1) (getCol df c2) true true strat rv with
    | error e => rw [hmf] at hv; simp at hv
    | ok xy =>
        rw [hmf] at hv
        simp only [pure, Except.pure, Except.ok.injEq] at hv
        refine ⟨xy.1, xy.2, rfl, ?_⟩
        rw [← hv]
        simp [pairOutSpec]
  · rw [decide_eq_true h1, decide_eq_false h2]
    cases hmf : make_finite (getCol df c1) (getCol df c2) true false strat rv with
    | error e => rw [hmf] at hv; simp at hv
    | ok xy =>
        rw [hmf] at hv
        simp only [pure, Except.pure, Except.ok.injEq] at hv
        refine ⟨xy.1, xy.2, rfl, ?_⟩
        rw [← hv]
        simp [pairOutSpec]
  · rw [decide_eq_false h1, decide_eq_true h2]
    cases hmf : make_finite (getCol df c1) (getCol df c2) false true strat rv with
    | error e => rw [hmf] at hv; simp at hv
    | ok xy =>
        rw [hmf] at hv
        simp only [pure, Except.pure, Except.ok.injEq] at hv
        refine ⟨xy.1, xy.2, rfl, ?_⟩
        rw [← hv]
        simp [pairOutSpec]
  · rw [decide_eq_false h1, decide_eq_false h2]
    cases hmf : make_finite (getCol df c1) (getCol df c2) false false strat rv with
    | error e => rw [hmf] at hv; simp at hv
    | ok xy =>
        rw [hmf] at hv
        cases symU with
        | true =>
            simp only [if_true, pure, Except.pure, Except.ok.injEq] at hv
            refine ⟨xy.1, xy.2, rfl, ?_⟩
            rw [← hv]
            simp [pairOutSpec]
        | false =>
            simp only [if_false, Bool.false_eq_true, pure, Except.pure,
              Except.ok.injEq] at hv
            refine ⟨xy.1, xy.2, rfl, ?_⟩
            rw [← hv]
            simp [pairOutSpec]

/-- C2: whenever `corr` returns on a table with distinct column names, the
association matrix holds exactly 1 and the p-value matrix exactly 0 at the
diagonal cell of every selected column, for every NaN strategy, and no
pair-loop iteration targets a diagonal cell (every computed pair has two
distinct columns). -/
theorem C2_diagonal (df : DataFrame) (cat num : List String) (fns : Stats)
    (strat : String) (rv : Val) (symU : Bool) (st : CorrState)
    (sel : List String) (hnd : df.names.Nodup)
    (hok : corr df cat num fns strat rv symU = .ok (st, sel)) :
    (∀ c ∈ sel, st.r c c = .fin 1 ∧ st.p c c = .fin 0) ∧
    (∀ pr ∈ combos2 sel, pr.1 ≠ pr.2) := by
  obtain ⟨hsel, hfold⟩ := corr_ok_elim hok
  have hselnd : (selectedCols df cat num).Nodup := hnd.filter _
  subst hsel
  constructor
  · intro c _
    have hdiag : ∀ pr ∈ combos2 (selectedCols df cat num), ¬ sameSup pr (c, c) := by
      intro pr hpr hss
      obtain ⟨p1, p2⟩ := pr
      have hne := combos2_ne hselnd hpr
      simp only [sameSup] at hss
      rcases hss with ⟨ha, hb⟩ | ⟨ha, hb⟩
      · exact hne (ha.symm.trans hb)
      · exact hne (hb.symm.trans ha)
    have hu := fold_untouched df num fns strat rv symU c c
      (combos2 (selectedCols df cat num)) corrInit st hdiag hfold
    exact ⟨hu.1, hu.2.1⟩
  · intro pr hpr
    obtain ⟨p1, p2⟩ := pr
    exact combos2_ne hselnd hpr

/-- Witness for C2: the diagonal of a concrete two-column `corr` run. -/
theorem C2_diagonal_witness :
    dfC4.names.Nodup ∧
    corr dfC4 ["C"] ["N"] fnsW "mask" (Val.num 0) false =
      .ok (corrOutW.1, corrOutW.2) ∧
    "N" ∈ corrOutW.2 ∧
    corrOutW.1.r "N" "N" = .fin 1 ∧ corrOutW.1.p "N" "N" = .fin 0 :=
  ⟨by decide, rfl, by decide,
   (C2_diagonal dfC4 ["C"] ["N"] fnsW "mask" (Val.num 0) false
      corrOutW.1 corrOutW.2 (by decide) rfl).1 "N" (by decide)⟩

/-- C3: in the association matrix returned by `corr`, numeric-numeric pairs
are stored symmetrically (hence in particular for a symmetric correlation
function), numeric-categorical pairs in either order are stored
symmetrically, categorical-categorical pairs are symmetric when `sym_u` is
set, and with `sym_u=False` the two cells hold the uncertainty coefficient
applied to the cleaned columns of the pair in the two opposite directions — which
for a direction-sensitive coefficient can differ, as the concrete run in the
second conjunct shows. -/
theorem C3_symmetry :
    (∀ (df : DataFrame) (cat num : List String) (fns : Stats) (strat : String)
        (rv : Val) (symU : Bool) (st : CorrState) (sel : List String)
        (c1 c2 : String),
      df.names.Nodup →
      corr df cat num fns strat rv symU = .ok (st, sel) →
      (c1, c2) ∈ combos2 sel →
      ((c1 ∈ num → st.r c1 c2 = st.r c2 c1) ∧
       (c1 ∉ num → c2 ∈ num → st.r c1 c2 = st.r c2 c1) ∧
       (c1 ∉ num → c2 ∉ num → symU = true → st.r c1 c2 = st.r c2 c1) ∧
       (c1 ∉ num → c2 ∉ num → symU = false →
        ∀ x y, make_finite (getCol df c1) (getCol df c2) false false strat rv =
            .ok (x, y) →
          st.r c1 c2 = fns.theilsU x y ∧ st.r c2 c1 = fns.theilsU y x))) ∧
    Except.map (fun out => decide (out.1.r "C" "D" = out.1.r "D" "C"))
      (corr dfAsym ["C", "D"] [] fnsAsym "mask" (Val.num 0) false) = .ok false := by
  constructor
  · intro df cat num fns strat rv symU st sel c1 c2 hnd hok hmem
    obtain ⟨hsel, hfold⟩ := corr_ok_elim hok
    subst hsel
    have hselnd : (selectedCols df cat num).Nodup := hnd.filter _
    have hne := combos2_ne hselnd hmem
    obtain ⟨o, hv, h12, h21, _, _, _, _⟩ :=
      fold_entry df num fns strat rv symU c1 c2 hne
        (combos2 (selectedCols df cat num)) corrInit st
        (combos2_pairwise hselnd) hmem hfold
    obtain ⟨x, y, hmf, ho⟩ := pairVals_eq hv
    refine ⟨?_, ?_, ?_, ?_⟩
    · intro hn1
      rw [h12, h21, ho, decide_eq_true hn1]
      cases hd2 : decide (c2 ∈ num) <;> simp [pairOutSpec]
    · intro hn1 hn2
      rw [h12, h21, ho, decide_eq_false hn1, decide_eq_true hn2]
      simp [pairOutSpec]
    · intro hn1 hn2 hsym
      rw [h12, h21, ho, decide_eq_false hn1, decide_eq_false hn2, hsym]
      simp [pairOutSpec]
    · intro hn1 hn2 hsym x0 y0 hmf0
      rw [decide_eq_false hn1, decide_eq_false hn2] at hmf ho
      have hxy := hmf0.symm.trans hmf
      simp only [Except.ok.injEq, Prod.mk.injEq] at hxy
      obtain ⟨hx, hy⟩ := hxy
      subst hx
      subst hy
      rw [hsym] at ho
      simp only [pairOutSpec, if_false, Bool.false_eq_true] at ho
      rw [h12, h21, ho]
      exact ⟨rfl, rfl⟩
  · rfl

/-- Witness for C3: the symmetric cells of a concrete mixed-type pair. -/
theorem C3_symmetry_witness :
    dfC4.names.Nodup ∧
    corr dfC4 ["C"] ["N"] fnsW "mask" (Val.num 0) false =
      .ok (corrOutW.1, corrOutW.2) ∧
    ("N", "C") ∈ combos2 corrOutW.2 ∧
    "N" ∈ ["N"] ∧
    corrOutW.1.r "N" "C" = corrOutW.1.r "C" "N" :=
  ⟨by decide, rfl, by decide, by decide,
   (C3_symmetry.1 dfC4 ["C"] ["N"] fnsW "mask" (Val.num 0) false
      corrOutW.1 corrOutW.2 "N" "C" (by decide) rfl (by decide)).1 (by decide)⟩

/-- C4 (amended): for every computed pair, `corr` stores the same tag in both
ordered cells, and that tag is determined by the numeric flags of the pair in
its selected order: `num_vs_num`, `num_vs_cat`, `cat_vs_num` or `cat_vs_cat`
according to the flags of the earlier and later column; consequently the tag
at a [categorical, numeric] cell depends on the column order, not only on the
two flags in that orientation. -/
theorem C4_pair_kind (df : DataFrame) (cat num : List String) (fns : Stats)
    (strat : String) (rv : Val) (symU : Bool) (st : CorrState)
    (sel : List String) (c1 c2 : String) (hnd : df.names.Nodup)
    (hok : corr df cat num fns strat rv symU = .ok (st, sel))
    (hmem : (c1, c2) ∈ combos2 sel) :
    st.ct c1 c2 = .ct (kindOf (decide (c1 ∈ num)) (decide (c2 ∈ num))) ∧
    st.ct c2 c1 = .ct (kindOf (decide (c1 ∈ num)) (decide (c2 ∈ num))) := by
  obtain ⟨hsel, hfold⟩ := corr_ok_elim hok
  subst hsel
  have hselnd : (selectedCols df cat num).Nodup := hnd.filter _
  have hne := combos2_ne hselnd hmem
  obtain ⟨o, hv, _, _, _, _, hct1, hct2⟩ :=
    fold_entry df num fns strat rv symU c1 c2 hne
      (combos2 (selectedCols df cat num)) corrInit st
      (combos2_pairwise hselnd) hmem hfold
  obtain ⟨x, y, _, ho⟩ := pairVals_eq hv
  rw [hct1, hct2, ho]
  cases hd1 : decide (c1 ∈ num) <;> cases hd2 : decide (c2 ∈ num) <;>
    cases symU <;> simp [pairOutSpec, kindOf]

/-- Witness for the amended C4 statement at a concrete mixed pair. -/
theorem C4_pair_kind_witness :
    dfC4.names.Nodup ∧
    corr dfC4 ["C"] ["N"] fnsW "mask" (Val.num 0) false =
      .ok (corrOutW.1, corrOutW.2) ∧
    ("N", "C") ∈ combos2 corrOutW.2 ∧
    corrOutW.1.ct "N" "C" =
      .ct (kindOf (decide ("N" ∈ ["N"])) (decide ("C" ∈ ["N"]))) ∧
    corrOutW.1.ct "C" "N" =
      .ct (kindOf (decide ("N" ∈ ["N"])) (decide ("C" ∈ ["N"]))) :=
  ⟨by decide, rfl, by decide,
   C4_pair_kind dfC4 ["C"] ["N"] fnsW "mask" (Val.num 0) false
     corrOutW.1 corrOutW.2 "N" "C" (by decide) rfl (by decide)⟩

/-- C4 counterexample: with a numeric column N listed before a categorical
column C, the tag stored at the [C, N] cell is `num_vs_cat`, although C is
categorical and N numeric, refuting the claim that this cell always holds
`cat_vs_num`. -/
theorem C4_counterexample :
    Except.map (fun out => out.1.ct "C" "N")
      (corr dfC4 ["C"] ["N"] fnsW "mask" (Val.num 0) false) =
      .ok (CTEntry.ct CorrType.num_vs_cat) ∧
    CorrType.num_vs_cat ≠ CorrType.cat_vs_num :=
  ⟨rfl, by decide⟩

/-- C1: under the mask strategy `_make_finite` returns exactly the rows that
are valid in both columns — validity being finiteness (excluding NaN and the
infinities) for a numeric column and non-missingness for a categorical one —
and, on the example frame of the spec (A=[1,2,3,NaN] numeric, B=[x,y,x,y]
categorical), `corr` with the mask strategy hands the correlation-ratio
statistic exactly the three rows where A is finite, paired with their
corresponding B values, and tags the pair `num_vs_cat`. -/
theorem C1_mask_rows :
    (∀ (col1 col2 : List Val) (n1 n2 : Bool) (rv : Val),
      make_finite col1 col2 n1 n2 "mask" rv =
        .ok (((col1.zip col2).filter (fun ab =>
                (if n1 then isfinite ab.1 else !(isnullV ab.1)) &&
                (if n2 then isfinite ab.2 else !(isnullV ab.2)))).map Prod.fst,
             ((col1.zip col2).filter (fun ab =>
                (if n1 then isfinite ab.1 else !(isnullV ab.1)) &&
                (if n2 then isfinite ab.2 else !(isnullV ab.2)))).map Prod.snd)) ∧
    (∀ fns : Stats,
      Except.map (fun out => (out.1.r "A" "B", out.1.ct "A" "B", out.2))
        (corr dfC1 ["B"] ["A"] fns "mask" (Val.num 0) false) =
        .ok (fns.correlationRatioFn [Val.cat "x", Val.cat "y", Val.cat "x"]
               [Val.num 1, Val.num 2, Val.num 3],
             CTEntry.ct CorrType.num_vs_cat, ["A", "B"])) := by
  constructor
  · intro col1 col2 n1 n2 rv
    rfl
  · intro fns
    rfl

theorem pairVals_bad_strat {df : DataFrame} {numIn : List String} {fns : Stats}
    {strat : String} {rv : Val} {symU : Bool} {c1 c2 : String}
    (h1 : strat ≠ "mask") (h2 : strat ≠ "replace") :
    pairVals df numIn fns strat rv symU c1 c2 =
      .error (.valueError ("Unknown method " ++ strat ++ ".")) := by
  have hmf : ∀ (ca cb : List Val) (na nb : Bool),
      make_finite ca cb na nb strat rv =
        .error (.valueError ("Unknown method " ++ strat ++ ".")) := by
    intro ca cb na nb
    simp [make_finite, h1, h2]
  by_cases hc1 : c1 ∈ numIn <;> by_cases hc2 : c2 ∈ numIn <;>
    simp [pairVals, hc1, hc2, hmf, Bind.bind, Except.bind]

/-- C5 (amended): `corr` raises the unknown-method `ValueError` for any
nan-strategy other than mask and replace whenever at least one pair is
computed (at least two selected columns); `heatmap` raises for every unknown
`map_type`; `ColGrid.map` (not the constructor) raises for every unknown
interaction mode; and the `ColGrid` constructor raises for the conflicting
combination of comb interaction with a y-column list. -/
theorem C5_validation :
    (∀ (df : DataFrame) (cat num : List String) (fns : Stats) (strat : String)
        (rv : Val) (symU : Bool),
      strat ≠ "mask" → strat ≠ "replace" →
      2 ≤ (selectedCols df cat num).length →
      corr df cat num fns strat rv symU =
        .error (.valueError ("Unknown method " ++ strat ++ "."))) ∧
    (∀ (hdf : HeatDf) (cts : Option (List (List CTEntry)))
        (m : Option (List (List Bool))) (mt : String) (ax : Bool),
      mt ≠ "zaric" → mt ≠ "standard" → mt ≠ "dendrograms" →
      heatmap hdf cts m mt ax =
        .error (.valueError ("Unknown map_type " ++ mt ++ "."))) ∧
    (∀ (g : ColGrid) (func : String → Option String → Except PyErr Unit),
      g.interact ≠ "product" → g.interact ≠ "zip" → g.interact ≠ "comb" →
      colGridMap g func =
        .error (.valueError ("Uknown interact method " ++ g.interact ++ "."))) ∧
    (∀ (data : DataFrame) (xCols yCols : List String) (cw : Option Nat),
      colGridInit data xCols (some yCols) "comb" cw =
        .error (.valueError "When using interact == comb, y_cols must be None.")) := by
  refine ⟨?_, ?_, ?_, ?_⟩
  · intro df cat num fns strat rv symU h1 h2 hlen
    obtain ⟨a, rest, hsel⟩ : ∃ a rest, selectedCols df cat num = a :: rest := by
      cases hS : selectedCols df cat num with
      | nil => rw [hS] at hlen; simp at hlen
      | cons a rest => exact ⟨a, rest, rfl⟩
    obtain ⟨b, t, hbt⟩ : ∃ b t, rest = b :: t := by
      cases hR : rest with
      | nil => rw [hsel, hR] at hlen; simp at hlen
      | cons b t => exact ⟨b, t, rfl⟩
    subst hbt
    simp only [corr, Bind.bind]
    rw [hsel]
    simp only [combos2, List.map_cons, List.cons_append, List.foldlM_cons,
      pairStep, pairVals_bad_strat h1 h2, Except.map, Except.bind]
    simp [Bind.bind, Except.bind]
  · intro hdf cts m mt ax h1 h2 h3
    simp [heatmap, h1, h2, h3]
  · intro g func h1 h2 h3
    simp [colGridMap, h1, h2, h3]
  · intro data xCols yCols cw
    simp [colGridInit]

/-- Witness for the amended C5 statement at concrete bad names. -/
theorem C5_validation_witness :
    ((("bogus" : String) ≠ "mask") ∧ (("bogus" : String) ≠ "replace") ∧
      2 ≤ (selectedCols dfC4 ["C"] ["N"]).length ∧
      corr dfC4 ["C"] ["N"] fnsW "bogus" (Val.num 0) false =
        .error (.valueError ("Unknown method " ++ "bogus" ++ "."))) ∧
    ((("wat" : String) ≠ "zaric") ∧ (("wat" : String) ≠ "standard") ∧
      (("wat" : String) ≠ "dendrograms") ∧
      heatmap ⟨[], [], []⟩ none none "wat" false =
        .error (.valueError ("Unknown map_type " ++ "wat" ++ "."))) ∧
    ((ColGrid.mk dfOneCol [] [none] "wat" 1).interact ≠ "product" ∧
      (ColGrid.mk dfOneCol [] [none] "wat" 1).interact ≠ "zip" ∧
      (ColGrid.mk dfOneCol [] [none] "wat" 1).interact ≠ "comb" ∧
      colGridMap (ColGrid.mk dfOneCol [] [none] "wat" 1) (fun _ _ => .ok ()) =
        .error (.valueError ("Uknown interact method " ++ "wat" ++ "."))) ∧
    colGridInit dfOneCol ["A"] (some ["A"]) "comb" none =
      .error (.valueError "When using interact == comb, y_cols must be None.") :=
  ⟨⟨by decide, by decide, by decide,
    C5_validation.1 dfC4 ["C"] ["N"] fnsW "bogus" (Val.num 0) false
      (by decide) (by decide) (by decide)⟩,
   ⟨by decide, by decide, by decide,
    C5_validation.2.1 ⟨[], [], []⟩ none none "wat" false
      (by decide) (by decide) (by decide)⟩,
   ⟨by decide, by decide, by decide,
    C5_validation.2.2.1 (ColGrid.mk dfOneCol [] [none] "wat" 1)
      (fun _ _ => .ok ()) (by decide) (by decide) (by decide)⟩,
   C5_validation.2.2.2 dfOneCol ["A"] ["A"] none⟩

/-- C5 counterexample: `corr` on a one-column frame with an unrecognized
nan-strategy returns normally instead of raising, and a `ColGrid` with an
unrecognized interaction mode is constructed without error. -/
theorem C5_counterexample :
    Except.map (fun out => out.2)
      (corr dfOneCol [] ["A"] fnsW "bogus" (Val.num 0) false) = .ok ["A"] ∧
    colGridInit dfOneCol ["A"] (some ["A"]) "bogus" none =
      .ok ⟨dfOneCol, ["A"], [some "A"], "bogus", 1⟩ :=
  ⟨rfl, rfl⟩

theorem countP_range_filterMap (g : Nat → Option Shape) (i : Nat) (n : Nat) :
    (((List.range n).filterMap (fun j => (g j).map (fun s => (j, s)))).countP
        (fun pr => decide (pr.1 = i))) =
      if i < n ∧ (g i).isSome then 1 else 0 := by
  induction n with
  | zero => simp
  | succ n ih =>
      rw [List.range_succ, List.filterMap_append, List.countP_append, ih]
      rcases Nat.lt_trichotomy i n with hlt | heq | hgt
      · have h1 : i < n + 1 := Nat.lt_succ_of_lt hlt
        have hne : n ≠ i := Nat.ne_of_gt hlt
        cases hg : g n with
        | none => simp [hg, hlt, h1]
        | some s => simp [hg, hlt, h1, hne]
      · subst heq
        cases hg : g i with
        | none => simp [hg]
        | some s => simp [hg, Nat.lt_irrefl, Nat.lt_succ_self]
      · have h1 : ¬ i < n := by omega
        have h2 : ¬ i < n + 1 := by omega
        have hne : n ≠ i := by omega
        cases hg : g n with
        | none => simp [hg, h1, h2]
        | some s => simp [hg, h1, h2, hne]

/-- C7: in the output collection of the zaric renderer, a cell whose size value is
0, whose color value is NaN, or whose mask entry is True contributes no
shape, each of the three conditions sufficing on its own, and every other
cell contributes exactly one shape. -/
theorem C7_zaric_filter (y x : List String) (color size : List Rval)
    (circular : List Bool) (mask : Option (List Bool)) (i : Nat)
    (hi : i < min (min x.length y.length) circular.length) :
    (zaricShapes y x color size circular mask).countP (fun pr => decide (pr.1 = i)) =
      if decide (size.getD i (.fin 1) = .fin 0) || isnanR (color.getD i (.fin 1))
          || maskAt mask i
      then 0 else 1 := by
  unfold zaricShapes
  have hfun : (fun j => if zaricSkip color size mask j then none
        else some (j, if circular.getD j false then Shape.circle else Shape.rect)) =
      (fun j => ((fun k => if zaricSkip color size mask k then none
        else some (if circular.getD k false then Shape.circle else Shape.rect)) j).map
          (fun s => (j, s))) := by
    funext j
    by_cases h : zaricSkip color size mask j <;> simp [h]
  rw [hfun, countP_range_filterMap]
  rw [show (decide (size.getD i (.fin 1) = .fin 0) ||
      isnanR (color.getD i (.fin 1)) || maskAt mask i) =
      zaricSkip color size mask i from rfl]
  have hi' := hi
  simp only [lt_min_iff] at hi'
  cases hskip : zaricSkip color size mask i <;>
    simp [hskip, hi'.1.1, hi'.1.2, hi'.2]

/-- Witness for C7: a one-cell grid whose single unfiltered cell emits
exactly one shape. -/
theorem C7_zaric_filter_witness :
    0 < min (min (["a"] : List String).length (["b"] : List String).length)
        ([false] : List Bool).length ∧
    (zaricShapes ["b"] ["a"] [.fin 1] [.fin 1] [false] none).countP
        (fun pr => decide (pr.1 = 0)) =
      if decide (([Rval.fin 1].getD 0 (.fin 1)) = .fin 0) ||
          isnanR ([Rval.fin 1].getD 0 (.fin 1)) || maskAt none 0
      then 0 else 1 :=
  ⟨by decide,
   C7_zaric_filter ["b"] ["a"] [.fin 1] [.fin 1] [false] none 0 (by decide)⟩

/-- C8 (amended): the render mask built by `corr_heatmap` marks a cell as
masked exactly when a p-value bound is given and the p-value of the cell is
greater than or equal to the bound (the code comparison `p >= p_bound`), when
diagonal masking is on and the cell is diagonal, or when the caller-supplied
mask already marked it; all other cells are left as the caller set them
(visible for the default all-false mask). -/
theorem C8_mask_pipeline (mask0 : Option (String → String → Bool))
    (p : String → String → Rval) (pBound : Option ℚ) (maskDiag : Bool)
    (i j : String) :
    corrHeatmapMask mask0 p pBound maskDiag i j =
      ((match pBound with
        | some b => rvalGe (p i j) b
        | none => false) ||
       (maskDiag && decide (i = j)) ||
       (mask0.getD (fun _ _ => false)) i j) := by
  cases pBound with
  | none =>
      cases maskDiag <;> by_cases hij : i = j <;>
        simp [corrHeatmapMask, maskDiagonalF, hij]
  | some b =>
      cases maskDiag <;> by_cases hij : i = j <;>
        cases hg : rvalGe (p i j) b <;>
        simp [corrHeatmapMask, maskCorrSignificance, maskDiagonalF, hij, hg]

/-- C8 counterexample: a cell whose p-value equals the bound exactly — hence
does not strictly exceed it — is nevertheless masked, because the code masks
on `p >= p_bound`. -/
theorem C8_counterexample :
    corrHeatmapMask none (fun _ _ => Rval.fin 1) (some 1) false
      "A" "B" = true ∧
    ¬ ((1 : ℚ) > 1) :=
  ⟨by decide, lt_irrefl (1 : ℚ)⟩

/-- C9 (amended): `crosstab_plot` always forwards a `normalize` keyword that
the signature of `numpy_crosstab` does not accept, so every call that reaches the
crosstab invocation — every call without a dataframe, and every call with a
dataframe whose column lookups succeed — raises a `TypeError` before any
crosstab is computed; the remaining calls raise a lookup `KeyError` instead,
so `crosstab_plot` never returns a table for any input. -/
theorem C9_crosstab_plot :
    (∀ (x y : CrossArg) (d s : Bool) (nrm : Option String),
      crosstabPlot x y none d s nrm = .error .typeError) ∧
    (∀ (df : CrossDF) (x y : CrossArg) (d s : Bool) (nrm : Option String)
        (xv yv : List (Option String)),
      dataGet9 df x = .ok xv → dataGet9 df y = .ok yv →
      crosstabPlot x y (some df) d s nrm = .error .typeError) ∧
    (∀ (x y : CrossArg) (data : Option CrossDF) (d s : Bool)
        (nrm : Option String) (t : CTab),
      crosstabPlot x y data d s nrm ≠ .ok t) := by
  refine ⟨?_, ?_, ?_⟩
  · intro x y d s nrm
    rfl
  · intro df x y d s nrm xv yv hx hy
    unfold crosstabPlot
    simp only [Bind.bind, Except.bind, hx, hy]
    rfl
  · intro x y data d s nrm t
    cases data with
    | none =>
        simp [crosstabPlot, Bind.bind, Except.bind, callNumpyCrosstab,
          numpyCrosstabKeys]
    | some df =>
        cases hx : dataGet9 df x with
        | error e => simp [crosstabPlot, Bind.bind, Except.bind, hx]
        | ok xv =>
            cases hy : dataGet9 df y with
            | error e => simp [crosstabPlot, Bind.bind, Except.bind, hx, hy]
            | ok yv =>
                simp [crosstabPlot, Bind.bind, Except.bind, hx, hy,
                  callNumpyCrosstab, numpyCrosstabKeys]

/-- Witness for the amended C9 statement at a concrete successful lookup. -/
theorem C9_crosstab_plot_witness :
    dataGet9 ⟨[("a", [some "u"])]⟩ (.name "a") = .ok [some "u"] ∧
    crosstabPlot (.name "a") (.name "a") (some ⟨[("a", [some "u"])]⟩)
      false false none = .error .typeError :=
  ⟨rfl,
   C9_crosstab_plot.2.1 ⟨[("a", [some "u"])]⟩ (.name "a") (.name "a")
     false false none [some "u"] [some "u"] rfl rfl⟩

/-- C9 counterexample: a call whose dataframe lacks the requested column
raises a `KeyError`, not a `TypeError` — refuting that every call raises a
`TypeError` (it still returns no table). -/
theorem C9_counterexample :
    crosstabPlot (.name "a") (.name "b") (some ⟨[]⟩) false false none =
      .error (.keyError "a") ∧
    PyErr.keyError "a" ≠ PyErr.typeError :=
  ⟨rfl, by decide⟩

theorem colGridRun_head_error {g : ColGrid} {p : String × Option String}
    {pairs : List (String × Option String)} {numPlots : Nat}
    {func : String → Option String → Except PyErr Unit} {e : PyErr}
    (hcw : 1 ≤ g.colWrap) (hnp : 1 ≤ numPlots)
    (hfe : func p.1 p.2 = .error e) :
    colGridRun g (p :: pairs) numPlots func = .error e := by
  unfold colGridRun
  have h1 : 1 ≤ (numPlots + g.colWrap - 1) / g.colWrap := by
    rw [Nat.one_le_div_iff hcw]
    omega
  have h2 : 1 ≤ (numPlots + g.colWrap - 1) / g.colWrap * g.colWrap :=
    Nat.one_le_iff_ne_zero.mpr (Nat.mul_ne_zero (by omega) (by omega))
  obtain ⟨m, hm⟩ := Nat.exists_eq_add_of_le h2
  show (List.take ((numPlots + g.colWrap - 1) / g.colWrap * g.colWrap)
      (p :: pairs)).forM (fun pr => func pr.1 pr.2) = Except.error e
  rw [hm, Nat.add_comm, List.take_succ_cons]
  simp [List.forM, hfe, Bind.bind, Except.bind]

theorem colGridMap_product_head_error {data : DataFrame} {y0 : Option String}
    {ys : List (Option String)} {xc : String} {cw : Nat}
    {func : String → Option String → Except PyErr Unit} {e : PyErr}
    (hcw : 1 ≤ cw) (hfe : func xc y0 = .error e) :
    colGridMap (ColGrid.mk data [xc] (y0 :: ys) "product" cw) func = .error e := by
  unfold colGridMap
  rw [if_pos rfl]
  have hpairs : ((([xc].map (fun a => (y0 :: ys).map (fun b => (a, b))))).flatten)
      = (xc, y0) :: ys.map (fun b => (xc, b)) := by simp
  rw [hpairs]
  refine colGridRun_head_error hcw ?_ hfe
  simp

/-- C10 (amended): `proportion_plot` passes the literal column name Sex, not
its `x_col` argument, as the x columns of the grid it builds; but because the
grid function `map` invokes the plotting helper with bare column-name strings and no
dataframe, every call with at least one dummy column fails with a `TypeError`
inside `pd.concat` — for every `x_col`, including `x_col = "Sex"` — and never
plots proportions of `x_col`. -/
theorem C10_proportion_plot :
    (∀ (df : DataFrame) (xCol propCol : String) (g : ColGrid),
      proportionPlotGrid df xCol propCol = .ok g → g.xCols = ["Sex"]) ∧
    (∀ (df : DataFrame) (xCol propCol : String) (rest : List String)
        (pv xs : List Val),
      dfGetE df propCol = .ok pv → dfGetE df xCol = .ok xs →
      getDummiesCols pv ≠ [] →
      proportionPlot df xCol (propCol :: rest) = .error .typeError) := by
  constructor
  · intro df xCol propCol g h
    unfold proportionPlotGrid at h
    cases hp : dfGetE df propCol with
    | error e => rw [hp] at h; simp [Bind.bind, Except.bind] at h
    | ok pv =>
        rw [hp] at h
        cases hx : dfGetE df xCol with
        | error e => rw [hx] at h; simp [Bind.bind, Except.bind] at h
        | ok xs =>
            rw [hx] at h
            simp only [Bind.bind, Except.bind, colGridInit] at h
            rw [if_neg (by simp)] at h
            simp only [Except.ok.injEq] at h
            rw [← h]
  · intro df xCol propCol rest pv xs hp hx hnem
    obtain ⟨d, ds, hd⟩ : ∃ d ds, getDummiesCols pv = d :: ds := by
      cases hD : getDummiesCols pv with
      | nil => exact absurd hD hnem
      | cons d ds => exact ⟨d, ds, rfl⟩
    have hone : proportionPlotOne df xCol propCol = .error .typeError := by
      unfold proportionPlotOne proportionPlotGrid
      simp only [hp, hx, Bind.bind, Except.bind, getDummies, hd, List.map_cons,
        List.map_map, colGridInit]
      rw [if_neg (by simp)]
      simp only []
      refine colGridMap_product_head_error ?_ (by rfl)
      simp only [Option.getD, List.length_cons, List.length_map,
        List.length_singleton, List.length_nil, Nat.zero_add, Nat.one_mul]
      refine Nat.le_min.mpr ⟨by omega, by omega⟩
    unfold proportionPlot
    simp [List.forM, hone, Bind.bind, Except.bind]

/-- Witness for the amended C10 statement on a concrete frame that does have a
Sex column. -/
theorem C10_proportion_plot_witness :
    proportionPlotGrid dfC10 "Sex" "Smoker" =
      .ok ((proportionPlotGrid dfC10 "Sex" "Smoker").toOption.getD
        (ColGrid.mk dfOneCol [] [] "x" 0)) ∧
    ((proportionPlotGrid dfC10 "Sex" "Smoker").toOption.getD
        (ColGrid.mk dfOneCol [] [] "x" 0)).xCols = ["Sex"] ∧
    dfGetE dfC10 "Smoker" = .ok [Val.cat "yes"] ∧
    dfGetE dfC10 "Sex" = .ok [Val.cat "m"] ∧
    getDummiesCols [Val.cat "yes"] ≠ [] ∧
    proportionPlot dfC10 "Sex" ["Smoker"] = .error .typeError :=
  ⟨rfl,
   C10_proportion_plot.1 dfC10 "Sex" "Smoker" _ rfl,
   rfl, rfl, by decide,
   C10_proportion_plot.2 dfC10 "Sex" "Smoker" [] [Val.cat "yes"] [Val.cat "m"]
     rfl rfl (by decide)⟩

/-- C10 counterexample: even with `x_col = "Sex"` — where the claim predicts
a successful plot grouped against Sex — `proportion_plot` fails with a
`TypeError`, because the grid function `map` never forwards the dataframe to the
plotting helper. -/
theorem C10_counterexample :
    proportionPlot dfC10 "Sex" ["Smoker"] = .error .typeError := rfl

theorem mem_insertSorted {a b : String} {l : List String} :
    a ∈ insertSorted b l ↔ a = b ∨ a ∈ l := by
  induction l with
  | nil => simp [insertSorted]
  | cons c t ih =>
      unfold insertSorted
      by_cases h : strLe b c
      · simp [h]
      · simp only [h, if_false, Bool.false_eq_true, List.mem_cons, ih]
        tauto

theorem mem_sortStr {a : String} {l : List String} : a ∈ sortStr l ↔ a ∈ l := by
  induction l with
  | nil => simp [sortStr]
  | cons b t ih =>
      rw [show sortStr (b :: t) = insertSorted b (sortStr t) from rfl,
        mem_insertSorted]
      simp [ih]

theorem mem_uniqueSorted {a : String} {l : List String} :
    a ∈ uniqueSorted l ↔ a ∈ l := by
  unfold uniqueSorted
  rw [List.mem_dedup, mem_sortStr]

theorem nodup_uniqueSorted (l : List String) : (uniqueSorted l).Nodup :=
  List.nodup_dedup _

theorem countP_or_disjoint {α : Type} (p q : α → Bool) (l : List α)
    (h : ∀ a ∈ l, ¬(p a = true ∧ q a = true)) :
    l.countP (fun a => p a || q a) = l.countP p + l.countP q := by
  induction l with
  | nil => simp
  | cons a t ih =>
      rw [List.countP_cons, List.countP_cons, List.countP_cons,
        ih (fun b hb => h b (List.mem_cons_of_mem a hb))]
      by_cases hp : p a = true
      · have hq : ¬ q a = true := fun hq => h a (List.mem_cons_self a t) ⟨hp, hq⟩
        simp only [hp, Bool.true_or, if_true]
        simp [hq]
        omega
      · simp only [Bool.not_eq_true] at hp
        simp [hp]
        omega

theorem sum_countP {α : Type} (f : α → String) (q : α → Bool) (P : List α)
    (A : List String) (hnd : A.Nodup) :
    (A.map (fun a => P.countP (fun r => q r && decide (f r = a)))).sum =
      P.countP (fun r => q r && decide (f r ∈ A)) := by
  induction A with
  | nil => simp
  | cons a A ih =>
      rw [List.map_cons, List.sum_cons, ih (List.nodup_cons.mp hnd).2]
      have hdis : ∀ r ∈ P,
          ¬((q r && decide (f r = a)) = true ∧
            (q r && decide (f r ∈ A)) = true) := by
        intro r _ hand
        obtain ⟨h1, h2⟩ := hand
        simp only [Bool.and_eq_true, decide_eq_true_eq] at h1 h2
        exact (List.nodup_cons.mp hnd).1 (h1.2 ▸ h2.2)
      rw [← countP_or_disjoint _ _ _ hdis]
      apply List.countP_congr
      intro r _
      cases hq : q r <;> simp [hq, List.mem_cons]

theorem crosstab_total_countP (P : List (Option String × Option String))
    (A B : List String) (hA : A.Nodup) (hB : B.Nodup) :
    ((A.map (fun a => B.map (fun b =>
        P.countP (fun p => decide (strCast p.1 = a ∧ strCast p.2 = b))))).map
      List.sum).sum =
    P.countP (fun p => decide (strCast p.2 ∈ B) && decide (strCast p.1 ∈ A)) := by
  rw [List.map_map]
  have h1 : ∀ a : String, ((B.map (fun b => P.countP (fun p =>
      decide (strCast p.1 = a ∧ strCast p.2 = b)))).sum) =
      P.countP (fun p => decide (strCast p.1 = a) && decide (strCast p.2 ∈ B)) := by
    intro a
    rw [← sum_countP (fun p => strCast p.2) (fun p => decide (strCast p.1 = a)) P B hB]
    congr 1
    apply List.map_congr_left
    intro b _
    apply List.countP_congr
    intro r _
    simp
  have h2 : A.map (List.sum ∘ fun a => B.map (fun b =>
      P.countP (fun p => decide (strCast p.1 = a ∧ strCast p.2 = b)))) =
      A.map (fun a => P.countP (fun p =>
        decide (strCast p.2 ∈ B) && decide (strCast p.1 = a))) := by
    apply List.map_congr_left
    intro a _
    rw [Function.comp_apply, h1 a]
    apply List.countP_congr
    intro r _
    cases hq : decide (strCast r.1 = a) <;>
      cases hw : decide (strCast r.2 ∈ B) <;> simp [hq, hw]
  rw [h2, sum_countP (fun p => strCast p.1) (fun p => decide (strCast p.2 ∈ B)) P A hA]

/-- C6 (amended): with `dropna=False` and `shownan=True` the crosstab cells
sum to the number of input rows; with `shownan=False` they sum to the number
of rows minus the rows whose string-cast is nan on either side (which
coincides with the missing-marker rows except when a literal nan string
occurs); the row and column label sets are the unique string-cast values
observed, minus nan when `shownan=False`; and the concrete example of the spec
yields the stated 2-by-2 table. -/
theorem C6_numpy_crosstab :
    (∀ (x y : List (Option String)), y.length = x.length →
      ctabTotal (numpyCrosstab x y false true) = x.length) ∧
    (∀ (x y : List (Option String)), y.length = x.length →
      ctabTotal (numpyCrosstab x y false false) =
        x.length - (x.zip y).countP (fun p =>
          decide (strCast p.1 = "nan") || decide (strCast p.2 = "nan"))) ∧
    (∀ (x y : List (Option String)) (sn : Bool) (a : String),
      y.length = x.length →
      ((a ∈ (numpyCrosstab x y false sn).rowLabels ↔
         a ∈ x.map strCast ∧ (sn = true ∨ a ≠ "nan")) ∧
       (a ∈ (numpyCrosstab x y false sn).colLabels ↔
         a ∈ y.map strCast ∧ (sn = true ∨ a ≠ "nan")))) ∧
    numpyCrosstab [some "a", some "b", some "a"] [some "p", some "p", some "q"]
        false false = ⟨["a", "b"], ["p", "q"], [[1, 1], [1, 0]]⟩ := by
  refine ⟨?_, ?_, ?_, by decide⟩
  · intro x y hlen
    simp only [numpyCrosstab, ctabTotal, Bool.false_eq_true, if_false, if_true]
    rw [crosstab_total_countP _ _ _ (nodup_uniqueSorted _) (nodup_uniqueSorted _)]
    have hall : ∀ p ∈ x.zip y,
        (decide (strCast p.2 ∈
            uniqueSorted ((x.zip y).map (fun p => strCast p.2))) &&
         decide (strCast p.1 ∈
            uniqueSorted ((x.zip y).map (fun p => strCast p.1)))) = true := by
      intro p hp
      simp only [Bool.and_eq_true, decide_eq_true_eq, mem_uniqueSorted]
      exact ⟨List.mem_map_of_mem _ hp, List.mem_map_of_mem _ hp⟩
    rw [List.countP_eq_length.mpr hall, List.length_zip]
    omega
  · intro x y hlen
    simp only [numpyCrosstab, ctabTotal, Bool.false_eq_true, if_false]
    rw [crosstab_total_countP _ _ _ ((nodup_uniqueSorted _).filter _)
      ((nodup_uniqueSorted _).filter _)]
    have hcongr : ∀ p ∈ x.zip y,
        ((decide (strCast p.2 ∈
            (uniqueSorted ((x.zip y).map (fun p => strCast p.2))).filter
              (fun s => decide (s ≠ "nan"))) &&
          decide (strCast p.1 ∈
            (uniqueSorted ((x.zip y).map (fun p => strCast p.1))).filter
              (fun s => decide (s ≠ "nan")))) = true ↔
         (decide ¬((decide (strCast p.1 = "nan") ||
            decide (strCast p.2 = "nan")) = true)) = true) := by
      intro p hp
      simp only [Bool.and_eq_true, decide_eq_true_eq, List.mem_filter,
        mem_uniqueSorted, Bool.or_eq_true]
      constructor
      · rintro ⟨⟨_, h2⟩, ⟨_, h4⟩⟩
        push_neg
        exact ⟨h4, h2⟩
      · intro h
        push_neg at h
        exact ⟨⟨List.mem_map_of_mem _ hp, h.2⟩, List.mem_map_of_mem _ hp, h.1⟩
    rw [List.countP_congr hcongr]
    have hsplit := List.length_eq_countP_add_countP
      (fun p => decide (strCast p.1 = "nan") || decide (strCast p.2 = "nan"))
      (x.zip y)
    rw [List.length_zip] at hsplit
    omega
  · intro x y sn a hlen
    have hxs : (x.zip y).map (fun p => strCast p.1) = x.map strCast := by
      rw [show (fun p : Option String × Option String => strCast p.1) =
          strCast ∘ Prod.fst from rfl, ← List.map_map,
        List.map_fst_zip x y (by omega)]
    have hys : (x.zip y).map (fun p => strCast p.2) = y.map strCast := by
      rw [show (fun p : Option String × Option String => strCast p.2) =
          strCast ∘ Prod.snd from rfl, ← List.map_map,
        List.map_snd_zip x y (by omega)]
    constructor
    · show a ∈ (if sn then uniqueSorted ((x.zip y).map (fun p => strCast p.1))
          else (uniqueSorted ((x.zip y).map (fun p => strCast p.1))).filter
            (fun s => decide (s ≠ "nan"))) ↔ _
      cases sn with
      | true => simp [mem_uniqueSorted, hxs]
      | false => simp [List.mem_filter, mem_uniqueSorted, hxs]
    · show a ∈ (if sn then uniqueSorted ((x.zip y).map (fun p => strCast p.2))
          else (uniqueSorted ((x.zip y).map (fun p => strCast p.2))).filter
            (fun s => decide (s ≠ "nan"))) ↔ _
      cases sn with
      | true => simp [mem_uniqueSorted, hys]
      | false => simp [List.mem_filter, mem_uniqueSorted, hys]

/-- Witness for the amended C6 statement at a concrete pair of columns with one
missing entry. -/
theorem C6_numpy_crosstab_witness :
    ([some "p", some "q"] : List (Option String)).length =
      ([some "a", none] : List (Option String)).length ∧
    ctabTotal (numpyCrosstab [some "a", none] [some "p", some "q"] false false) =
      ([some "a", none] : List (Option String)).length -
        (([some "a", none] : List (Option String)).zip
          ([some "p", some "q"] : List (Option String))).countP (fun p =>
            decide (strCast p.1 = "nan") || decide (strCast p.2 = "nan")) :=
  ⟨rfl, C6_numpy_crosstab.2.1 [some "a", none] [some "p", some "q"] rfl⟩

/-- C6 counterexample: a literal nan string is not a missing-value marker,
yet its row is dropped from the table when `shownan=False`, so the cell sum
falls short of the row count minus the missing-marker rows. -/
theorem C6_counterexample :
    ¬ (ctabTotal (numpyCrosstab [some "nan"] [some "p"] false false) =
        ([some "nan"] : List (Option String)).length -
          (([some "nan"] : List (Option String)).zip
            ([some "p"] : List (Option String))).countP
              (fun p => p.1.isNone || p.2.isNone)) := by decide
